import Mathlib

/-! Verification of the dignity-resolution core of the Cartographer
repository (`src/cartographer/features/dignity.py`): the channel topology
table, the harmonic-partner lookup, planet-name normalization and the
`calculate_dignity` decision cascade. Records and verdicts are shallowly
embedded as Lean structures; the per-(gate, line) data store is an
association list keyed by the decimal string forms of gate and line, as in
the source. -/

namespace Cartographer

/-- A per-(gate, line) dignity record, with the defaults of
`line_data.get(...)` already applied: `no_polarity` defaults to `false`,
the three planet lists default to `[]`. -/
structure LineData where
  no_polarity : Bool
  exaltation_planets : List String
  detriment_planets : List String
  juxtaposition_planets : List String
  deriving Repr, DecidableEq

/-- The dictionary returned by `calculate_dignity`: a state string, the two
optional trigger planets, and a human-readable details string. -/
structure DignityVerdict where
  state : String
  active_trigger : Option String
  harmonic_trigger : Option String
  details : String
  deriving Repr, DecidableEq

/-- Channel definitions, `(gate1, gate2)` tuples, in source order. -/
def CHANNELS : List (Int × Int) :=
  [(64, 47), (61, 24), (63, 4), (17, 62), (43, 23), (11, 56),
   (16, 48), (20, 57), (20, 34), (20, 10), (31, 7), (8, 1),
   (33, 13), (45, 21), (35, 36), (12, 22), (32, 54), (28, 38),
   (57, 34), (50, 27), (18, 58), (10, 34), (15, 5), (2, 14),
   (46, 29), (10, 57), (25, 51), (59, 6), (42, 53), (3, 60),
   (9, 52), (26, 44), (40, 37), (49, 19), (55, 39), (30, 41)]

/-- The loop body of `get_harmonic_gate`: scan the tuples in order,
checking each tuple's first element before its second. -/
def scanChannels : List (Int × Int) → Int → Option Int
  | [], _ => none
  | (gate1, gate2) :: rest, gate =>
      if gate = gate1 then some gate2
      else if gate = gate2 then some gate1
      else scanChannels rest gate

/-- Look up the harmonic partner gate for a channel: the first match in
`CHANNELS`, or `none` if the gate is in no channel. -/
def get_harmonic_gate (gate : Int) : Option Int :=
  scanChannels CHANNELS gate

/-- Normalize a planet name for matching: every underscore becomes a
space (Python `planet.replace('_', ' ')`, a character-wise substitution). -/
def normalize_planet_name (planet : String) : String :=
  String.mk (planet.data.map (fun c => if c = '_' then ' ' else c))

/-- The conditional reassignment `if harmonic_planet: harmonic_planet =
normalize_planet_name(harmonic_planet)`: a missing or empty (falsy) name
is left untouched, otherwise it is normalized. -/
def normHarmonicPlanet : Option String → Option String
  | none => none
  | some h => if h = "" then some h else some (normalize_planet_name h)

/-- The Python idiom `harmonic_planet and harmonic_planet in l`, used as a
boolean: `False` when the harmonic planet is `None` or empty, list
membership otherwise. -/
def harmonicAnd (h : Option String) (l : List String) : Bool :=
  match h with
  | none => false
  | some s => if s = "" then false else l.contains s

/-- The dignity data store: gate-number-as-string to line-number-as-string
to a `LineData` record. -/
def DignityData : Type := List (String × List (String × LineData))

/-- The two-level lookup `dignity_data[gate_str][line_str]`, `none` when
either key is absent. -/
def lookupLine (d : DignityData) (gate_str line_str : String) : Option LineData :=
  match List.lookup gate_str d with
  | none => none
  | some gd => List.lookup line_str gd

/-- The full IHDS dignity cascade of `calculate_dignity`, with the
pre-loaded data store passed explicitly. `harmonic_gate` is accepted, as
in the source, but never read. -/
def calculate_dignity (gate : Option Int) (line : Option Int)
    (active_planet : String) (harmonic_gate : Option Int)
    (harmonic_planet : Option String) (dignity_data : DignityData) :
    DignityVerdict :=
  match gate, line with
  | some g, some l =>
    match lookupLine dignity_data (toString g) (toString l) with
    | none =>
        ⟨"neutral", none, none, "No dignity data for this gate.line"⟩
    | some line_data =>
        let active := normalize_planet_name active_planet
        let harmonic := normHarmonicPlanet harmonic_planet
        if line_data.no_polarity then
          ⟨"neutral", none, none, "No polarity line"⟩
        else if line_data.juxtaposition_planets.contains active then
          ⟨"juxtaposed", some active, none, "Star glyph (explicit juxtaposition)"⟩
        else if harmonicAnd harmonic line_data.juxtaposition_planets then
          ⟨"juxtaposed", none, harmonic, "Star glyph via harmonic planet"⟩
        else
          let active_exalted := line_data.exaltation_planets.contains active
          let active_detriment := line_data.detriment_planets.contains active
          let harmonic_exalted := harmonicAnd harmonic line_data.exaltation_planets
          let harmonic_detriment := harmonicAnd harmonic line_data.detriment_planets
          if active_exalted && harmonic_detriment || active_detriment && harmonic_exalted then
            ⟨"juxtaposed", some active, harmonic, "Double fixing (opposite polarities)"⟩
          else
            let has_exaltation := active_exalted || harmonic_exalted
            let has_detriment := active_detriment || harmonic_detriment
            if has_exaltation && has_detriment then
              if active_exalted then
                ⟨"exalted", some active,
                  if harmonic_exalted then harmonic else none,
                  "Multiple planets same polarity (exalted)"⟩
              else
                ⟨"detriment", some active,
                  if harmonic_detriment then harmonic else none,
                  "Multiple planets same polarity (detriment)"⟩
            else if has_exaltation then
              ⟨"exalted",
                if active_exalted then some active else harmonic, none,
                if active_exalted then "Exalted via active planet"
                else "Exalted via harmonic planet"⟩
            else if has_detriment then
              ⟨"detriment",
                if active_detriment then some active else harmonic, none,
                if active_detriment then "Detriment via active planet"
                else "Detriment via harmonic planet"⟩
            else
              ⟨"neutral", none, none, "No dignity triggers"⟩
  | _, _ =>
      ⟨"neutral", none, none, "Invalid gate or line"⟩

/-- Occurrence count of a gate among the channel tuples (either slot). -/
def gateOccurrences (g : Int) : Nat :=
  (CHANNELS.filter (fun p => p.1 = g || p.2 = g)).length

/-- C1: once a record is found for (gate, line), a true `no_polarity` flag
forces the neutral "No polarity line" verdict with both triggers absent,
whatever the planets and the record's planet lists are. -/
theorem C1_no_polarity_dominance (g l : Int) (ap : String) (hg : Option Int)
    (hp : Option String) (d : DignityData) (rec : LineData)
    (hrec : lookupLine d (toString g) (toString l) = some rec)
    (hnp : rec.no_polarity = true) :
    calculate_dignity (some g) (some l) ap hg hp d =
      ⟨"neutral", none, none, "No polarity line"⟩ := by
  simp [calculate_dignity, hrec, hnp]

theorem C1_no_polarity_dominance_witness :
    lookupLine [("7", [("2", ⟨true, ["Sun"], ["Moon"], ["Mars"]⟩)])]
        (toString (7 : Int)) (toString (2 : Int)) =
      some ⟨true, ["Sun"], ["Moon"], ["Mars"]⟩ ∧
    calculate_dignity (some 7) (some 2) ("Sun") none (some ("Mars"))
        [("7", [("2", ⟨true, ["Sun"], ["Moon"], ["Mars"]⟩)])] =
      ⟨"neutral", none, none, "No polarity line"⟩ :=
  ⟨by decide,
   C1_no_polarity_dominance 7 2 ("Sun") none (some ("Mars"))
     [("7", [("2", ⟨true, ["Sun"], ["Moon"], ["Mars"]⟩)])]
     ⟨true, ["Sun"], ["Moon"], ["Mars"]⟩ (by decide) rfl⟩

/-- Normalization keeps a name nonempty: the underscore-to-space map is
character-wise, so the result is empty exactly when the input is. -/
lemma normalize_planet_name_eq_empty (s : String) :
    normalize_planet_name s = "" ↔ s = "" := by
  cases s with
  | mk data =>
    simp [normalize_planet_name, String.ext_iff]

/-- A provided, truthy harmonic name is normalized by the reassignment. -/
lemma normHarmonicPlanet_some (h : String) (hne : ¬h = "") :
    normHarmonicPlanet (some h) = some (normalize_planet_name h) := by
  simp [normHarmonicPlanet, hne]

/-- On a truthy name, `harmonicAnd` is plain list membership. -/
lemma harmonicAnd_some (s : String) (l : List String) (hne : ¬s = "") :
    harmonicAnd (some s) l = l.contains s := by
  simp [harmonicAnd, hne]

/-- C2: a star-glyph match on the (normalized) active planet returns the
juxtaposed verdict with the active planet as sole trigger, whatever the
exaltation and detriment lists or the harmonic planet say. -/
theorem C2_star_glyph_precedence (g l : Int) (ap : String) (hg : Option Int)
    (hp : Option String) (d : DignityData) (rec : LineData)
    (hrec : lookupLine d (toString g) (toString l) = some rec)
    (hnp : rec.no_polarity = false)
    (hjux : rec.juxtaposition_planets.contains (normalize_planet_name ap) = true) :
    calculate_dignity (some g) (some l) ap hg hp d =
      ⟨"juxtaposed", some (normalize_planet_name ap), none,
        "Star glyph (explicit juxtaposition)"⟩ := by
  have hjux' : normalize_planet_name ap ∈ rec.juxtaposition_planets := by
    simpa using hjux
  simp [calculate_dignity, hrec, hnp, hjux']

theorem C2_star_glyph_precedence_witness :
    calculate_dignity (some 9) (some 4) ("Sun") none (some ("Moon"))
        [("9", [("4", ⟨false, ["Sun"], ["Sun"], ["Sun", "Moon"]⟩)])] =
      ⟨"juxtaposed", some ("Sun"), none, "Star glyph (explicit juxtaposition)"⟩ :=
  C2_star_glyph_precedence 9 4 ("Sun") none (some ("Moon"))
    [("9", [("4", ⟨false, ["Sun"], ["Sun"], ["Sun", "Moon"]⟩)])]
    ⟨false, ["Sun"], ["Sun"], ["Sun", "Moon"]⟩ (by decide) rfl (by decide)

/-- C3: with no star-glyph match and the two planets pulling in opposite
polarities, the verdict is juxtaposed with both triggers set. -/
theorem C3_opposite_polarity_juxtaposition (g l : Int) (ap h : String)
    (hg : Option Int) (d : DignityData) (rec : LineData)
    (hrec : lookupLine d (toString g) (toString l) = some rec)
    (hnp : rec.no_polarity = false)
    (hne : ¬h = "")
    (hjA : rec.juxtaposition_planets.contains (normalize_planet_name ap) = false)
    (hjH : rec.juxtaposition_planets.contains (normalize_planet_name h) = false)
    (hopp : (rec.exaltation_planets.contains (normalize_planet_name ap) = true ∧
             rec.detriment_planets.contains (normalize_planet_name h) = true) ∨
            (rec.detriment_planets.contains (normalize_planet_name ap) = true ∧
             rec.exaltation_planets.contains (normalize_planet_name h) = true)) :
    calculate_dignity (some g) (some l) ap hg (some h) d =
      ⟨"juxtaposed", some (normalize_planet_name ap),
        some (normalize_planet_name h), "Double fixing (opposite polarities)"⟩ := by
  have hnorm : ¬normalize_planet_name h = "" := by
    simpa [normalize_planet_name_eq_empty] using hne
  have hjA' : normalize_planet_name ap ∉ rec.juxtaposition_planets := by
    simpa using hjA
  have hjH' : normalize_planet_name h ∉ rec.juxtaposition_planets := by
    simpa using hjH
  rcases hopp with ⟨h1, h2⟩ | ⟨h1, h2⟩
  · have h1' : normalize_planet_name ap ∈ rec.exaltation_planets := by simpa using h1
    have h2' : normalize_planet_name h ∈ rec.detriment_planets := by simpa using h2
    simp [calculate_dignity, hrec, hnp, hjA', hjH',
      normHarmonicPlanet_some h hne, harmonicAnd_some _ _ hnorm, h1', h2']
  · have h1' : normalize_planet_name ap ∈ rec.detriment_planets := by simpa using h1
    have h2' : normalize_planet_name h ∈ rec.exaltation_planets := by simpa using h2
    simp [calculate_dignity, hrec, hnp, hjA', hjH',
      normHarmonicPlanet_some h hne, harmonicAnd_some _ _ hnorm, h1', h2']

theorem C3_opposite_polarity_juxtaposition_witness :
    calculate_dignity (some 34) (some 4) ("Sun") none (some ("Earth"))
        [("34", [("4", ⟨false, ["Sun"], ["Earth"], []⟩)])] =
      ⟨"juxtaposed", some ("Sun"), some ("Earth"),
        "Double fixing (opposite polarities)"⟩ :=
  C3_opposite_polarity_juxtaposition 34 4 ("Sun") ("Earth") none
    [("34", [("4", ⟨false, ["Sun"], ["Earth"], []⟩)])]
    ⟨false, ["Sun"], ["Earth"], []⟩ (by decide) rfl (by decide) (by decide)
    (by decide) (Or.inl ⟨by decide, by decide⟩)

/-- C4: in the same-polarity combination step (record found, polarity
present, no star glyph, no double fixing, both `has_exaltation` and
`has_detriment`), the active planet's polarity is reported: exalted when
the active planet exalts, detriment otherwise, with the active planet as
primary trigger and the harmonic planet as secondary trigger exactly when
it shares that polarity. -/
theorem C4_same_polarity_combination (g l : Int) (ap : String) (hg : Option Int)
    (hp : Option String) (d : DignityData) (rec : LineData)
    (hrec : lookupLine d (toString g) (toString l) = some rec)
    (hnp : rec.no_polarity = false)
    (hjA : rec.juxtaposition_planets.contains (normalize_planet_name ap) = false)
    (hjH : harmonicAnd (normHarmonicPlanet hp) rec.juxtaposition_planets = false)
    (hB : (rec.exaltation_planets.contains (normalize_planet_name ap) &&
             harmonicAnd (normHarmonicPlanet hp) rec.detriment_planets ||
           rec.detriment_planets.contains (normalize_planet_name ap) &&
             harmonicAnd (normHarmonicPlanet hp) rec.exaltation_planets) = false)
    (hex : (rec.exaltation_planets.contains (normalize_planet_name ap) ||
            harmonicAnd (normHarmonicPlanet hp) rec.exaltation_planets) = true)
    (hdet : (rec.detriment_planets.contains (normalize_planet_name ap) ||
             harmonicAnd (normHarmonicPlanet hp) rec.detriment_planets) = true) :
    calculate_dignity (some g) (some l) ap hg hp d =
      (if rec.exaltation_planets.contains (normalize_planet_name ap) then
        ⟨"exalted", some (normalize_planet_name ap),
          if harmonicAnd (normHarmonicPlanet hp) rec.exaltation_planets then
            normHarmonicPlanet hp
          else none,
          "Multiple planets same polarity (exalted)"⟩
      else
        ⟨"detriment", some (normalize_planet_name ap),
          if harmonicAnd (normHarmonicPlanet hp) rec.detriment_planets then
            normHarmonicPlanet hp
          else none,
          "Multiple planets same polarity (detriment)"⟩) := by
  simp only [calculate_dignity, hrec, hnp, Bool.false_eq_true, if_false, hjA, hjH, hB,
    hex, hdet, Bool.true_and, Bool.and_true, if_true]

theorem C4_same_polarity_combination_witness :
    calculate_dignity (some 5) (some 1) ("Sun") none none
        [("5", [("1", ⟨false, ["Sun"], ["Sun"], []⟩)])] =
      ⟨"exalted", some ("Sun"), none,
        "Multiple planets same polarity (exalted)"⟩ := by
  have h := C4_same_polarity_combination 5 1 ("Sun") none none
    [("5", [("1", ⟨false, ["Sun"], ["Sun"], []⟩)])]
    ⟨false, ["Sun"], ["Sun"], []⟩ (by decide) rfl (by decide)
    (by decide) (by decide) (by decide) (by decide)
  simpa using h

/-- Scanning a channel list resolves the gate against the earliest tuple
containing it, and within a tuple the first slot is checked before the
second. -/
lemma scanChannels_first_match (l1 : List (Int × Int)) (a b : Int)
    (l2 : List (Int × Int)) (g : Int)
    (hnot : ∀ q ∈ l1, g ≠ q.1 ∧ g ≠ q.2) (hg : g = a ∨ g = b) :
    scanChannels (l1 ++ (a, b) :: l2) g = some (if g = a then b else a) := by
  induction l1 with
  | nil =>
    by_cases h1 : g = a
    · simp [scanChannels, h1]
    · rcases hg with rfl | rfl
      · exact absurd rfl h1
      · simp [scanChannels, h1]
  | cons q l1 ih =>
    obtain ⟨q1, q2⟩ := q
    obtain ⟨hq1, hq2⟩ := hnot (q1, q2) (List.mem_cons_self _ _)
    simp only [List.cons_append, scanChannels, if_neg hq1, if_neg hq2]
    exact ih fun r hr => hnot r (List.mem_cons_of_mem _ hr)

/-- C5 counterexample: the pair (20, 34) is a tuple of the channel table,
yet the harmonic lookup for gate 20 answers 57 — the partner from the
earlier tuple (20, 57) — so the claimed symmetry fails as stated. -/
theorem C5_harmonic_symmetry_counterexample :
    ((20 : Int), (34 : Int)) ∈ CHANNELS ∧
    get_harmonic_gate 20 = some 57 ∧ ¬get_harmonic_gate 20 = some 34 := by
  decide

/-- C5 amended: for every channel pair (g1, g2) whose two gates each occur
in exactly one tuple of the table, the harmonic lookup is symmetric:
g1 answers g2 and g2 answers g1. -/
theorem C5_harmonic_symmetry_amended :
    ∀ p ∈ CHANNELS, gateOccurrences p.1 = 1 → gateOccurrences p.2 = 1 →
      get_harmonic_gate p.1 = some p.2 ∧ get_harmonic_gate p.2 = some p.1 := by
  decide

theorem C5_harmonic_symmetry_amended_witness :
    get_harmonic_gate 64 = some 47 ∧ get_harmonic_gate 47 = some 64 :=
  C5_harmonic_symmetry_amended (64, 47) (by decide) (by decide) (by decide)

/-- C6 counterexample: gate 20 sits in three tuples of the channel table —
(20, 57), (20, 34) and (20, 10) — so a gate may appear in more than one
channel tuple. -/
theorem C6_gate_uniqueness_counterexample :
    ((20 : Int), (57 : Int)) ∈ CHANNELS ∧ ((20 : Int), (34 : Int)) ∈ CHANNELS ∧
    gateOccurrences 20 = 3 ∧ ¬gateOccurrences 20 ≤ 1 := by
  decide

/-- C6 amended: the table has 36 tuples; every gate other than the four
integration gates 10, 20, 34 and 57 appears in at most one tuple, while
each of those four appears in exactly three. -/
theorem C6_gate_uniqueness_amended :
    CHANNELS.length = 36 ∧
    (∀ p ∈ CHANNELS,
      (p.1 ∈ ([10, 20, 34, 57] : List Int) ∨ gateOccurrences p.1 = 1) ∧
      (p.2 ∈ ([10, 20, 34, 57] : List Int) ∨ gateOccurrences p.2 = 1)) ∧
    gateOccurrences 10 = 3 ∧ gateOccurrences 20 = 3 ∧
    gateOccurrences 34 = 3 ∧ gateOccurrences 57 = 3 := by
  decide

theorem C6_gate_uniqueness_amended_witness :
    ((64 : Int) ∈ ([10, 20, 34, 57] : List Int) ∨ gateOccurrences 64 = 1) ∧
    ((47 : Int) ∈ ([10, 20, 34, 57] : List Int) ∨ gateOccurrences 47 = 1) :=
  C6_gate_uniqueness_amended.2.1 (64, 47) (by decide)

/-- C10: the harmonic lookup takes its answer from the earliest tuple in
list order that contains the gate, first slot checked before the second;
gates 10, 20, 34 and 57 each occur in three tuples, and concretely
gate 34 and gate 57 both resolve to 20 while gate 64 resolves to 47. -/
theorem C10_earliest_tuple_lookup :
    (∀ (l1 l2 : List (Int × Int)) (a b g : Int),
      CHANNELS = l1 ++ (a, b) :: l2 →
      (∀ q ∈ l1, g ≠ q.1 ∧ g ≠ q.2) → (g = a ∨ g = b) →
      get_harmonic_gate g = some (if g = a then b else a)) ∧
    gateOccurrences 10 = 3 ∧ gateOccurrences 20 = 3 ∧
    gateOccurrences 34 = 3 ∧ gateOccurrences 57 = 3 ∧
    get_harmonic_gate 34 = some 20 ∧ get_harmonic_gate 57 = some 20 ∧
    get_harmonic_gate 64 = some 47 := by
  refine ⟨?_, by decide, by decide, by decide, by decide,
    by decide, by decide, by decide⟩
  intro l1 l2 a b g hchan hnot hg
  rw [get_harmonic_gate, hchan]
  exact scanChannels_first_match l1 a b l2 g hnot hg

theorem C10_earliest_tuple_lookup_witness :
    get_harmonic_gate 64 = some (if (64 : Int) = 64 then 47 else 64) :=
  C10_earliest_tuple_lookup.1 [] (CHANNELS.drop 1) 64 47 64 rfl
    (by simp) (Or.inl rfl)

/-- C7 counterexample: with the harmonic planet as sole contributor
(harmonic exalted, every other membership false), the verdict stores the
harmonic planet in `active_trigger` and leaves `harmonic_trigger` empty,
contrary to the claim. -/
theorem C7_harmonic_trigger_counterexample :
    calculate_dignity (some 1) (some 1) ("Moon") none (some ("Sun"))
        [("1", [("1", ⟨false, ["Sun"], [], []⟩)])] =
      ⟨"exalted", some ("Sun"), none, "Exalted via harmonic planet"⟩ ∧
    ¬(calculate_dignity (some 1) (some 1) ("Moon") none (some ("Sun"))
        [("1", [("1", ⟨false, ["Sun"], [], []⟩)])]).harmonic_trigger =
      some ("Sun") := by
  decide

/-- C7 amended: when the verdict's sole cause is the harmonic planet's
membership, the contributing harmonic planet is reported in the
`active_trigger` slot (the single trigger of the single-polarity branch),
`harmonic_trigger` stays empty, and the details string names the harmonic
side. -/
theorem C7_harmonic_only_trigger_amended (g l : Int) (ap : String)
    (hg : Option Int) (hp : Option String) (d : DignityData) (rec : LineData)
    (hrec : lookupLine d (toString g) (toString l) = some rec)
    (hnp : rec.no_polarity = false)
    (hjA : rec.juxtaposition_planets.contains (normalize_planet_name ap) = false)
    (hjH : harmonicAnd (normHarmonicPlanet hp) rec.juxtaposition_planets = false)
    (hae : rec.exaltation_planets.contains (normalize_planet_name ap) = false)
    (had : rec.detriment_planets.contains (normalize_planet_name ap) = false) :
    (harmonicAnd (normHarmonicPlanet hp) rec.exaltation_planets = true →
     harmonicAnd (normHarmonicPlanet hp) rec.detriment_planets = false →
     calculate_dignity (some g) (some l) ap hg hp d =
       ⟨"exalted", normHarmonicPlanet hp, none, "Exalted via harmonic planet"⟩) ∧
    (harmonicAnd (normHarmonicPlanet hp) rec.detriment_planets = true →
     harmonicAnd (normHarmonicPlanet hp) rec.exaltation_planets = false →
     calculate_dignity (some g) (some l) ap hg hp d =
       ⟨"detriment", normHarmonicPlanet hp, none, "Detriment via harmonic planet"⟩) := by
  constructor
  · intro hhe hhd
    simp only [calculate_dignity, hrec, hnp, hjA, hjH, hae, had, hhe, hhd,
      Bool.false_and, Bool.and_false, Bool.false_or, Bool.or_false,
      Bool.true_and, Bool.and_true, Bool.false_eq_true, if_false, if_true]
  · intro hhd hhe
    simp only [calculate_dignity, hrec, hnp, hjA, hjH, hae, had, hhe, hhd,
      Bool.false_and, Bool.and_false, Bool.false_or, Bool.or_false,
      Bool.true_and, Bool.and_true, Bool.false_eq_true, if_false, if_true]

theorem C7_harmonic_only_trigger_amended_witness :
    calculate_dignity (some 1) (some 2) ("Moon") none (some ("Sun"))
        [("1", [("2", ⟨false, ["Sun"], [], []⟩)])] =
      ⟨"exalted", some ("Sun"), none, "Exalted via harmonic planet"⟩ := by
  have h := (C7_harmonic_only_trigger_amended 1 2 ("Moon") none (some ("Sun"))
    [("1", [("2", ⟨false, ["Sun"], [], []⟩)])]
    ⟨false, ["Sun"], [], []⟩ (by decide) rfl (by decide) (by decide)
    (by decide) (by decide)).1 (by decide) (by decide)
  simpa using h

/-- C8: a missing gate or line yields the invalid-input neutral verdict,
uniformly in the data store (so no lookup can influence it), and a missing
(gate, line) record yields the no-data neutral verdict; both triggers are
absent in each case, and the function is total, so no call can raise. -/
theorem C8_missing_input_and_data (gate line : Option Int) (ap : String)
    (hg : Option Int) (hp : Option String) (d : DignityData) :
    ((gate = none ∨ line = none) →
      calculate_dignity gate line ap hg hp d =
        ⟨"neutral", none, none, "Invalid gate or line"⟩) ∧
    (∀ g l, gate = some g → line = some l →
      lookupLine d (toString g) (toString l) = none →
      calculate_dignity gate line ap hg hp d =
        ⟨"neutral", none, none, "No dignity data for this gate.line"⟩) := by
  constructor
  · rintro (rfl | rfl)
    · rfl
    · cases gate <;> rfl
  · rintro g l rfl rfl hlook
    simp [calculate_dignity, hlook]

theorem C8_missing_input_and_data_witness :
    calculate_dignity none (some 3) ("Sun") none none
        [("3", [("1", ⟨false, [], [], []⟩)])] =
      ⟨"neutral", none, none, "Invalid gate or line"⟩ :=
  (C8_missing_input_and_data none (some 3) ("Sun") none none
    [("3", [("1", ⟨false, [], [], []⟩)])]).1 (Or.inl rfl)

/-- Names with the same normalization get the same conditional
reassignment as harmonic planets. -/
lemma normHarmonicPlanet_congr (h1 h2 : String)
    (hh : normalize_planet_name h1 = normalize_planet_name h2) :
    normHarmonicPlanet (some h1) = normHarmonicPlanet (some h2) := by
  by_cases he : h1 = ""
  · have he2 : h2 = "" := by
      apply (normalize_planet_name_eq_empty h2).mp
      rw [← hh, he]
      rfl
    rw [he, he2]
  · have he2 : ¬h2 = "" := by
      intro h
      apply he
      apply (normalize_planet_name_eq_empty h1).mp
      rw [hh, h]
      rfl
    rw [normHarmonicPlanet_some h1 he, normHarmonicPlanet_some h2 he2, hh]

/-- C9: two spellings with the same normalization are interchangeable in
either role — in the active role with the optional harmonic planet left
completely arbitrary (present or absent), and in the harmonic role — so
the underscore-separated and space-separated forms of a planet name yield
identical verdicts with all other arguments equal. -/
theorem C9_normalization_invariance (gate line : Option Int)
    (p1 p2 h1 h2 : String) (hg : Option Int) (hp : Option String)
    (d : DignityData)
    (hpn : normalize_planet_name p1 = normalize_planet_name p2)
    (hhn : normalize_planet_name h1 = normalize_planet_name h2) :
    (calculate_dignity gate line p1 hg hp d =
      calculate_dignity gate line p2 hg hp d) ∧
    (calculate_dignity gate line p1 hg (some h1) d =
      calculate_dignity gate line p2 hg (some h2) d) := by
  have hH := normHarmonicPlanet_congr h1 h2 hhn
  constructor
  · simp only [calculate_dignity, hpn]
  · simp only [calculate_dignity, hpn, hH]

theorem C9_normalization_invariance_witness :
    calculate_dignity (some 2) (some 5) ("North_Node") none none
        [("2", [("5", ⟨false, ["North Node"], ["South Node"], []⟩)])] =
      calculate_dignity (some 2) (some 5) ("North Node") none none
        [("2", [("5", ⟨false, ["North Node"], ["South Node"], []⟩)])] :=
  (C9_normalization_invariance (some 2) (some 5) ("North_Node") ("North Node")
    ("South_Node") ("South Node") none none
    [("2", [("5", ⟨false, ["North Node"], ["South Node"], []⟩)])]
    (by decide) (by decide)).1

end Cartographer
